import Mathlib

/-!
# CreateEventForm: the form state and its submit handler

A shallow embedding of `src/CreateEventForm.js`: the four pieces of component
state (`formData`, `loading`, `error`, `success`), the change handler
`handleInputChange` and the asynchronous submit handler `handleSubmit`.

A handler is embedded as the ordered list of effects it performs (state
setter calls, the credential read, the `fetch` call, the timer it arms).  The
outside world (`localStorage`, the server behind `fetch`, the JavaScript
engine's `TypeError`) is an explicit `Env` argument, so every statement below
quantifies over all behaviours of these collaborators.
-/

namespace CreateEventForm

/-! ## JavaScript values -/

/-- An exception object (`TypeError`, `SyntaxError`, `DOMException`): only its
`message` string is read by the component. -/
structure JsError where
  message : String
  deriving DecidableEq, Repr

/-- The values `response.json()` can produce, together with `undefined`.
A number is kept as its IEEE-754 binary64 bit pattern, read modulo `2^64`. -/
inductive JsVal where
  | undefined
  | null
  | bool (b : Bool)
  | num (bits : Nat)
  | str (s : String)
  | arr (items : List JsVal)
  | obj (props : List (String × JsVal))

/-- Is the binary64 bit pattern `+0`, `-0` or a NaN (the falsy numbers). -/
def numIsFalsy (bits : Nat) : Bool :=
  let b := bits % 2 ^ 64
  decide (b % 2 ^ 63 = 0) || (decide ((b / 2 ^ 52) % 2 ^ 11 = 2047) && decide (b % 2 ^ 52 ≠ 0))

/-- JavaScript `ToBoolean`. -/
def JsVal.truthy : JsVal → Bool
  | .undefined => false
  | .null => false
  | .bool b => b
  | .num bits => !numIsFalsy bits
  | .str s => decide (s ≠ "")
  | .arr _ => true
  | .obj _ => true

/-- The operator `a || b` on already evaluated operands. -/
def JsVal.or (a b : JsVal) : JsVal :=
  if a.truthy then a else b

/-- The read `v.k` for a property name `k` that no built-in prototype defines
(`message`, `errors`, `msg`): it throws the engine's `TypeError` on `null` and
`undefined`, yields the own property of an object and `undefined` otherwise. -/
def JsVal.member (typeError : JsError) (v : JsVal) (k : String) : Except JsError JsVal :=
  match v with
  | .undefined => .error typeError
  | .null => .error typeError
  | .obj props => .ok ((props.lookup k).getD .undefined)
  | _ => .ok .undefined

/-- The optional read `v?.k`, for the same property names as `JsVal.member`. -/
def JsVal.optMember (v : JsVal) (k : String) : JsVal :=
  match v with
  | .obj props => (props.lookup k).getD .undefined
  | _ => .undefined

/-- The optional read `v?.[0]`: the first element of an array, the first
character of a string, the own property `"0"` of an object.  (Of a string
JavaScript yields the first UTF-16 code unit; it is a string in either
reading, which is all that the following `?.msg` depends on.) -/
def JsVal.optIndex0 (v : JsVal) : JsVal :=
  match v with
  | .arr items => items.head?.getD .undefined
  | .str s => if s = "" then .undefined else .str (String.mk (s.data.take 1))
  | .obj props => (props.lookup "0").getD .undefined
  | _ => .undefined

/-! ## The draft event -/

/-- The `formData` object: its own properties in insertion order.  Every value
is a string, as `e.target.value` of an input, textarea or select is. -/
abbrev JsObject := List (String × String)

/-- The read `formData.k`: `none` stands for `undefined`. -/
def getField (o : JsObject) (k : String) : Option String :=
  o.lookup k

/-- The object literal `{...o, [k]: v}`: the own properties of `o` in their
order, with `k` overwritten in place or added at the end.  (An engine lists
integer-like keys first; no statement below depends on the order of keys.) -/
def setField : JsObject → String → String → JsObject
  | [], k, v => [(k, v)]
  | (k', v') :: rest, k, v => if k' = k then (k', v) :: rest else (k', v') :: setField rest k v

/-- The test `!x` on a value that is a string, `undefined` or `null`. -/
def isFalsy : Option String → Bool
  | none => true
  | some s => decide (s = "")

/-- A template-literal hole filled with a field read: `undefined` prints as
the text `undefined`. -/
def fieldText : Option String → String
  | none => "undefined"
  | some s => s

/-- The argument of `useState` for `formData`, which is also the literal
passed to `setFormData` after a successful creation. -/
def defaultFormData : JsObject :=
  [("title", ""), ("description", ""), ("location", ""), ("date", ""), ("time", ""),
   ("status", "active")]

/-! ## Requests, responses and the environment -/

/-- The object handed to `JSON.stringify` for the request body; a property
whose value is `undefined` (`none`) is left out by the serialiser. -/
structure EventBody where
  title : Option String
  description : Option String
  location : Option String
  date : String
  status : Option String
  deriving DecidableEq, Repr

/-- The two arguments of `fetch`. -/
structure Request where
  url : String
  method : String
  headers : List (String × String)
  body : EventBody
  deriving DecidableEq, Repr

/-- What the handler reads of a `Response`: the `ok` flag and the outcome of
`response.json()`, which rejects when the body is not JSON. -/
structure Response where
  ok : Bool
  json : Except JsError JsVal

/-- The collaborators of the handler. `getItem` is `localStorage.getItem`
(`none` is `null`), `fetch` is the transport together with the server,
`typeError` is the exception the engine raises on reading a property of
`null`. -/
structure Env where
  getItem : String → Except JsError (Option String)
  fetch : Request → Except JsError Response
  typeError : JsError

/-- The props of the component that `handleSubmit` uses: whether the parent
supplied `onEventCreated`. -/
structure Props where
  onEventCreated : Bool

/-- A call made by a timer handler when it fires. -/
inductive Call where
  | onEventCreated
  deriving DecidableEq, Repr

/-! ## Effects and state -/

/-- One observable step of a handler. -/
inductive Effect where
  | setError (v : JsVal)
  | setSuccess (s : String)
  | setLoading (b : Bool)
  | setFormData (o : JsObject)
  | getItem (key : String)
  | fetch (req : Request)
  | json
  | setTimeout (handler : List Call) (delay : Nat)
  | consoleError (label : String) (err : JsError)

/-- The component state. -/
structure State where
  formData : JsObject
  loading : Bool
  error : JsVal
  success : String

/-- The state on mount. -/
def initialState : State :=
  ⟨defaultFormData, false, .str "", ""⟩

/-- The state change made by one effect; only the four setters change it. -/
def Effect.apply (s : State) : Effect → State
  | .setError v => ⟨s.formData, s.loading, v, s.success⟩
  | .setSuccess m => ⟨s.formData, s.loading, s.error, m⟩
  | .setLoading b => ⟨s.formData, b, s.error, s.success⟩
  | .setFormData o => ⟨o, s.loading, s.error, s.success⟩
  | _ => s

/-- The state after a whole trace. -/
def run (s : State) (trace : List Effect) : State :=
  trace.foldl Effect.apply s

/-! ## The handlers -/

/-- The handler `handleInputChange` applied to an event whose target has the
given `name` and `value`. -/
def handleInputChange (formData : JsObject) (name value : String) : List Effect :=
  [.setError (.str ""), .setSuccess "", .setFormData (setField formData name value)]

/-- The guard of the validation `if` in `handleSubmit`. -/
def missingRequired (formData : JsObject) : Bool :=
  isFalsy (getField formData "title") || isFalsy (getField formData "location") ||
    isFalsy (getField formData "date") || isFalsy (getField formData "time")

/-- The template literal that builds `dateTime`. -/
def dateTime (formData : JsObject) : String :=
  fieldText (getField formData "date") ++ "T" ++ fieldText (getField formData "time") ++ ":00"

/-- The request built by `handleSubmit` once `token` has been read. -/
def eventRequest (formData : JsObject) (token : Option String) : Request :=
  { url := "http://localhost:5000/api/events"
    method := "POST"
    headers := [("Content-Type", "application/json"),
                ("Authorization", "Bearer " ++ token.getD "null")]
    body :=
      { title := getField formData "title"
        description := getField formData "description"
        location := getField formData "location"
        date := dateTime formData
        status := getField formData "status" } }

/-- The expression `data.message || data.errors?.[0]?.msg || 'Failed to create event'`. -/
def failureMessage (typeError : JsError) (data : JsVal) : Except JsError JsVal :=
  match data.member typeError "message" with
  | .error e => .error e
  | .ok m =>
    if m.truthy then .ok m
    else
      match data.member typeError "errors" with
      | .error e => .error e
      | .ok errors =>
        .ok (JsVal.or ((errors.optIndex0).optMember "msg") (.str "Failed to create event"))

/-- The handler of the timer armed after a successful creation. -/
def timerHandler (props : Props) : List Call :=
  if props.onEventCreated then [Call.onEventCreated] else []

/-- The `try` block of `handleSubmit`: the effects it performs and the
exception it ends with, if any. -/
def tryBlock (props : Props) (env : Env) (formData : JsObject) : List Effect × Option JsError :=
  match env.getItem "token" with
  | .error e => ([.getItem "token"], some e)
  | .ok token =>
    if isFalsy token then
      ([.getItem "token", .setError (.str "You must be logged in to create events")], none)
    else
      let req := eventRequest formData token
      match env.fetch req with
      | .error e => ([.getItem "token", .fetch req], some e)
      | .ok response =>
        match response.json with
        | .error e => ([.getItem "token", .fetch req, .json], some e)
        | .ok data =>
          if response.ok then
            ([.getItem "token", .fetch req, .json,
              .setSuccess "Event created successfully!",
              .setFormData defaultFormData,
              .setTimeout (timerHandler props) 1500], none)
          else
            match failureMessage env.typeError data with
            | .error e => ([.getItem "token", .fetch req, .json], some e)
            | .ok v => ([.getItem "token", .fetch req, .json, .setError v], none)

/-- The `catch` block of `handleSubmit`. -/
def catchBlock (err : JsError) : List Effect :=
  [.consoleError "Error creating event:" err,
   .setError (.str (if err.message ≠ "" then err.message
                    else "Failed to create event. Please try again."))]

/-- The handler `handleSubmit`, run with the `formData` of the render it
closes over. -/
def handleSubmit (props : Props) (env : Env) (formData : JsObject) : List Effect :=
  [.setError (.str ""), .setSuccess ""] ++
    (if missingRequired formData then
      [.setError (.str "Please fill in all required fields")]
    else
      [.setLoading true] ++
        (tryBlock props env formData).1 ++
        (match (tryBlock props env formData).2 with
         | some err => catchBlock err
         | none => []) ++
        [.setLoading false])

/-- The state after `handleSubmit` has run to completion from state `s`. -/
def submit (props : Props) (env : Env) (s : State) : State :=
  run s (handleSubmit props env s.formData)

/-! ## Observations on a trace -/

/-- The requests passed to `fetch`, in order. -/
def fetchCalls : List Effect → List Request
  | [] => []
  | .fetch req :: rest => req :: fetchCalls rest
  | _ :: rest => fetchCalls rest

/-- The arguments of the `setLoading` calls, in order. -/
def loadingWrites : List Effect → List Bool
  | [] => []
  | .setLoading b :: rest => b :: loadingWrites rest
  | _ :: rest => loadingWrites rest

/-- The arguments of the `setFormData` calls, in order. -/
def formDataWrites : List Effect → List JsObject
  | [] => []
  | .setFormData o :: rest => o :: formDataWrites rest
  | _ :: rest => formDataWrites rest

/-- The timers armed, in order: handler and delay in milliseconds. -/
def timers : List Effect → List (List Call × Nat)
  | [] => []
  | .setTimeout h d :: rest => (h, d) :: timers rest
  | _ :: rest => timers rest

/-- An effect that neither writes the success message or the draft nor arms a
timer. -/
def Effect.isQuiet : Effect → Bool
  | .setSuccess _ => false
  | .setFormData _ => false
  | .setTimeout _ _ => false
  | _ => true

/-- Does the submission receive a successful server response, that is, does it
reach the `if (response.ok)` branch: the draft passes validation, a non-empty
token is read, `fetch` resolves, the body parses as JSON and the response is
`ok`.  Every other submission ends in a local validation failure, a missing
token, a remote rejection or a thrown error. -/
def receivesOk (env : Env) (formData : JsObject) : Bool :=
  !missingRequired formData &&
    match env.getItem "token" with
    | .error _ => false
    | .ok token =>
      !isFalsy token &&
        match env.fetch (eventRequest formData token) with
        | .error _ => false
        | .ok response =>
          response.ok &&
            match response.json with
            | .error _ => false
            | .ok _ => true

/-! ## Sample inputs -/

/-- A filled-in draft. -/
def sampleDraft : JsObject :=
  [("title", "Open day"), ("description", ""), ("location", "Campus"),
   ("date", "2024-05-01"), ("time", "14:30"), ("status", "active")]

/-- A state holding the filled-in draft, as left by typing into a fresh form. -/
def sampleState : State :=
  ⟨sampleDraft, false, .str "", ""⟩

/-- An environment whose credential store holds `token` under the key `token`
and whose server always answers with `outcome`. -/
def sampleEnv (token : Option String) (outcome : Except JsError Response) : Env :=
  ⟨fun k => if k = "token" then .ok token else .ok none, fun _ => outcome,
   ⟨"Cannot read properties of null"⟩⟩

/-! ## Running a trace -/

theorem run_cons (s : State) (e : Effect) (t : List Effect) :
    run s (e :: t) = run (e.apply s) t := rfl

/-! ## The trace of `handleSubmit` on each path -/

theorem handleSubmit_invalid (props : Props) (env : Env) (d : JsObject)
    (h : missingRequired d = true) :
    handleSubmit props env d =
      [.setError (.str ""), .setSuccess "",
       .setError (.str "Please fill in all required fields")] := by
  simp [handleSubmit, h]

theorem handleSubmit_noToken (props : Props) (env : Env) (d : JsObject) (token : Option String)
    (h : missingRequired d = false) (ht : env.getItem "token" = .ok token)
    (hf : isFalsy token = true) :
    handleSubmit props env d =
      [.setError (.str ""), .setSuccess "", .setLoading true, .getItem "token",
       .setError (.str "You must be logged in to create events"), .setLoading false] := by
  simp [handleSubmit, tryBlock, h, ht, hf]

theorem handleSubmit_getItemThrows (props : Props) (env : Env) (d : JsObject) (e : JsError)
    (h : missingRequired d = false) (ht : env.getItem "token" = .error e) :
    handleSubmit props env d =
      [.setError (.str ""), .setSuccess "", .setLoading true, .getItem "token"] ++
        catchBlock e ++ [.setLoading false] := by
  simp [handleSubmit, tryBlock, h, ht]

theorem handleSubmit_fetchThrows (props : Props) (env : Env) (d : JsObject)
    (token : Option String) (e : JsError)
    (h : missingRequired d = false) (ht : env.getItem "token" = .ok token)
    (hf : isFalsy token = false) (hr : env.fetch (eventRequest d token) = .error e) :
    handleSubmit props env d =
      [.setError (.str ""), .setSuccess "", .setLoading true, .getItem "token",
       .fetch (eventRequest d token)] ++ catchBlock e ++ [.setLoading false] := by
  simp [handleSubmit, tryBlock, h, ht, hf, hr]

theorem handleSubmit_jsonThrows (props : Props) (env : Env) (d : JsObject)
    (token : Option String) (response : Response) (e : JsError)
    (h : missingRequired d = false) (ht : env.getItem "token" = .ok token)
    (hf : isFalsy token = false) (hr : env.fetch (eventRequest d token) = .ok response)
    (hj : response.json = .error e) :
    handleSubmit props env d =
      [.setError (.str ""), .setSuccess "", .setLoading true, .getItem "token",
       .fetch (eventRequest d token), .json] ++ catchBlock e ++ [.setLoading false] := by
  simp [handleSubmit, tryBlock, h, ht, hf, hr, hj]

theorem handleSubmit_ok (props : Props) (env : Env) (d : JsObject)
    (token : Option String) (response : Response) (data : JsVal)
    (h : missingRequired d = false) (ht : env.getItem "token" = .ok token)
    (hf : isFalsy token = false) (hr : env.fetch (eventRequest d token) = .ok response)
    (hj : response.json = .ok data) (hok : response.ok = true) :
    handleSubmit props env d =
      [.setError (.str ""), .setSuccess "", .setLoading true, .getItem "token",
       .fetch (eventRequest d token), .json, .setSuccess "Event created successfully!",
       .setFormData defaultFormData, .setTimeout (timerHandler props) 1500,
       .setLoading false] := by
  simp [handleSubmit, tryBlock, h, ht, hf, hr, hj, hok]

theorem handleSubmit_rejected (props : Props) (env : Env) (d : JsObject)
    (token : Option String) (response : Response) (data v : JsVal)
    (h : missingRequired d = false) (ht : env.getItem "token" = .ok token)
    (hf : isFalsy token = false) (hr : env.fetch (eventRequest d token) = .ok response)
    (hj : response.json = .ok data) (hok : response.ok = false)
    (hm : failureMessage env.typeError data = .ok v) :
    handleSubmit props env d =
      [.setError (.str ""), .setSuccess "", .setLoading true, .getItem "token",
       .fetch (eventRequest d token), .json, .setError v, .setLoading false] := by
  simp [handleSubmit, tryBlock, h, ht, hf, hr, hj, hok, hm]

theorem handleSubmit_rejectedThrows (props : Props) (env : Env) (d : JsObject)
    (token : Option String) (response : Response) (data : JsVal) (e : JsError)
    (h : missingRequired d = false) (ht : env.getItem "token" = .ok token)
    (hf : isFalsy token = false) (hr : env.fetch (eventRequest d token) = .ok response)
    (hj : response.json = .ok data) (hok : response.ok = false)
    (hm : failureMessage env.typeError data = .error e) :
    handleSubmit props env d =
      [.setError (.str ""), .setSuccess "", .setLoading true, .getItem "token",
       .fetch (eventRequest d token), .json] ++ catchBlock e ++ [.setLoading false] := by
  simp [handleSubmit, tryBlock, h, ht, hf, hr, hj, hok, hm]

/-! ## Auxiliary facts -/

theorem missingRequired_of_falsy (d : JsObject)
    (h : isFalsy (getField d "title") = true ∨ isFalsy (getField d "location") = true ∨
      isFalsy (getField d "date") = true ∨ isFalsy (getField d "time") = true) :
    missingRequired d = true := by
  unfold missingRequired
  rcases h with h | h | h | h <;> simp [h]

theorem missingRequired_of_filled (d : JsObject)
    (h1 : isFalsy (getField d "title") = false) (h2 : isFalsy (getField d "location") = false)
    (h3 : isFalsy (getField d "date") = false) (h4 : isFalsy (getField d "time") = false) :
    missingRequired d = false := by
  simp [missingRequired, h1, h2, h3, h4]

theorem getField_setField_same (d : JsObject) (k v : String) :
    getField (setField d k v) k = some v := by
  induction d with
  | nil => simp [setField, getField, List.lookup]
  | cons p rest ih =>
    obtain ⟨k', v'⟩ := p
    by_cases hk : k' = k
    · subst hk
      simp [setField, getField, List.lookup]
    · have hk2 : (k == k') = false := by
        simpa using fun h : k = k' => hk h.symm
      simp only [setField, hk, if_false, getField, List.lookup, hk2]
      exact ih

theorem getField_setField_other (d : JsObject) (k v j : String) (hj : j ≠ k) :
    getField (setField d k v) j = getField d j := by
  induction d with
  | nil =>
    have : (j == k) = false := by simpa using hj
    simp [setField, getField, List.lookup, this]
  | cons p rest ih =>
    obtain ⟨k', v'⟩ := p
    by_cases hk : k' = k
    · subst hk
      have : (j == k') = false := by simpa using hj
      simp [setField, getField, List.lookup, this]
    · simp only [setField, hk, if_false, getField, List.lookup]
      cases hjk : j == k'
      · exact ih
      · rfl

theorem receivesOk_true (env : Env) (d : JsObject) (h : receivesOk env d = true) :
    ∃ token response data, missingRequired d = false ∧ env.getItem "token" = .ok token ∧
      isFalsy token = false ∧ env.fetch (eventRequest d token) = .ok response ∧
      response.json = .ok data ∧ response.ok = true := by
  unfold receivesOk at h
  cases ht : env.getItem "token" with
  | error e => simp [ht] at h
  | ok token =>
    cases hr : env.fetch (eventRequest d token) with
    | error e => simp [ht, hr] at h
    | ok response =>
      cases hj : response.json with
      | error e => simp [ht, hr, hj] at h
      | ok data =>
        simp [ht, hr, hj] at h
        exact ⟨token, response, data, h.1, rfl, h.2.1, hr, hj, h.2.2⟩

theorem timers_of_quiet (t : List Effect) (h : t.all Effect.isQuiet = true) : timers t = [] := by
  induction t with
  | nil => rfl
  | cons e rest ih =>
    simp only [List.all_cons, Bool.and_eq_true] at h
    cases e <;> simp_all [timers, Effect.isQuiet]

theorem formDataWrites_of_quiet (t : List Effect) (h : t.all Effect.isQuiet = true) :
    formDataWrites t = [] := by
  induction t with
  | nil => rfl
  | cons e rest ih =>
    simp only [List.all_cons, Bool.and_eq_true] at h
    cases e <;> simp_all [formDataWrites, Effect.isQuiet]

theorem run_of_quiet (t : List Effect) (h : t.all Effect.isQuiet = true) (s : State) :
    (run s t).formData = s.formData ∧ (run s t).success = s.success := by
  induction t generalizing s with
  | nil => exact ⟨rfl, rfl⟩
  | cons e rest ih =>
    simp only [List.all_cons, Bool.and_eq_true] at h
    rw [run_cons]
    have := ih h.2 (e.apply s)
    cases e <;> simp_all [Effect.apply, Effect.isQuiet]

theorem handleSubmit_not_ok (props : Props) (env : Env) (d : JsObject)
    (h : receivesOk env d = false) :
    ∃ mid, handleSubmit props env d = .setError (.str "") :: .setSuccess "" :: mid ∧
      mid.all Effect.isQuiet = true := by
  cases hm : missingRequired d with
  | true =>
    exact ⟨_, handleSubmit_invalid props env d hm, by simp [Effect.isQuiet]⟩
  | false =>
    cases ht : env.getItem "token" with
    | error e =>
      exact ⟨_, handleSubmit_getItemThrows props env d e hm ht,
        by simp [Effect.isQuiet, catchBlock]⟩
    | ok token =>
      cases hf : isFalsy token with
      | true =>
        exact ⟨_, handleSubmit_noToken props env d token hm ht hf, by simp [Effect.isQuiet]⟩
      | false =>
        cases hr : env.fetch (eventRequest d token) with
        | error e =>
          exact ⟨_, handleSubmit_fetchThrows props env d token e hm ht hf hr,
            by simp [Effect.isQuiet, catchBlock]⟩
        | ok response =>
          cases hj : response.json with
          | error e =>
            exact ⟨_, handleSubmit_jsonThrows props env d token response e hm ht hf hr hj,
              by simp [Effect.isQuiet, catchBlock]⟩
          | ok data =>
            cases hok : response.ok with
            | true => simp [receivesOk, hm, ht, hf, hr, hj, hok] at h
            | false =>
              cases hv : failureMessage env.typeError data with
              | error e =>
                exact ⟨_, handleSubmit_rejectedThrows props env d token response data e
                  hm ht hf hr hj hok hv, by simp [Effect.isQuiet, catchBlock]⟩
              | ok v =>
                exact ⟨_, handleSubmit_rejected props env d token response data v
                  hm ht hf hr hj hok hv, by simp [Effect.isQuiet]⟩

theorem handleSubmit_valid_loading (props : Props) (env : Env) (d : JsObject)
    (h : missingRequired d = false) :
    loadingWrites (handleSubmit props env d) = [true, false] ∧
      ∀ s, (run s (handleSubmit props env d)).loading = false := by
  cases ht : env.getItem "token" with
  | error e =>
    rw [handleSubmit_getItemThrows props env d e h ht]
    exact ⟨by simp [loadingWrites, catchBlock], fun s => by simp [run, catchBlock, Effect.apply]⟩
  | ok token =>
    cases hf : isFalsy token with
    | true =>
      rw [handleSubmit_noToken props env d token h ht hf]
      exact ⟨by simp [loadingWrites], fun s => by simp [run, Effect.apply]⟩
    | false =>
      cases hr : env.fetch (eventRequest d token) with
      | error e =>
        rw [handleSubmit_fetchThrows props env d token e h ht hf hr]
        exact ⟨by simp [loadingWrites, catchBlock],
          fun s => by simp [run, catchBlock, Effect.apply]⟩
      | ok response =>
        cases hj : response.json with
        | error e =>
          rw [handleSubmit_jsonThrows props env d token response e h ht hf hr hj]
          exact ⟨by simp [loadingWrites, catchBlock],
            fun s => by simp [run, catchBlock, Effect.apply]⟩
        | ok data =>
          cases hok : response.ok with
          | true =>
            rw [handleSubmit_ok props env d token response data h ht hf hr hj hok]
            exact ⟨by simp [loadingWrites], fun s => by simp [run, Effect.apply]⟩
          | false =>
            cases hv : failureMessage env.typeError data with
            | error e =>
              rw [handleSubmit_rejectedThrows props env d token response data e
                h ht hf hr hj hok hv]
              exact ⟨by simp [loadingWrites, catchBlock],
                fun s => by simp [run, catchBlock, Effect.apply]⟩
            | ok v =>
              rw [handleSubmit_rejected props env d token response data v h ht hf hr hj hok hv]
              exact ⟨by simp [loadingWrites], fun s => by simp [run, Effect.apply]⟩

theorem handleSubmit_fetchCalls (props : Props) (env : Env) (d : JsObject)
    (token : Option String) (h : missingRequired d = false)
    (ht : env.getItem "token" = .ok token) (hf : isFalsy token = false) :
    fetchCalls (handleSubmit props env d) = [eventRequest d token] := by
  cases hr : env.fetch (eventRequest d token) with
  | error e =>
    rw [handleSubmit_fetchThrows props env d token e h ht hf hr]
    simp [fetchCalls, catchBlock]
  | ok response =>
    cases hj : response.json with
    | error e =>
      rw [handleSubmit_jsonThrows props env d token response e h ht hf hr hj]
      simp [fetchCalls, catchBlock]
    | ok data =>
      cases hok : response.ok with
      | true =>
        rw [handleSubmit_ok props env d token response data h ht hf hr hj hok]
        simp [fetchCalls]
      | false =>
        cases hv : failureMessage env.typeError data with
        | error e =>
          rw [handleSubmit_rejectedThrows props env d token response data e h ht hf hr hj hok hv]
          simp [fetchCalls, catchBlock]
        | ok v =>
          rw [handleSubmit_rejected props env d token response data v h ht hf hr hj hok hv]
          simp [fetchCalls]

theorem failureMessage_ok (typeError : JsError) (data : JsVal)
    (h1 : data ≠ .null) (h2 : data ≠ .undefined) :
    failureMessage typeError data =
      .ok (JsVal.or (data.optMember "message")
        (JsVal.or (((data.optMember "errors").optIndex0).optMember "msg")
          (.str "Failed to create event"))) := by
  cases data with
  | undefined => exact absurd rfl h2
  | null => exact absurd rfl h1
  | obj props =>
    simp only [failureMessage, JsVal.member, JsVal.optMember, JsVal.or]
    split <;> rfl
  | _ => simp [failureMessage, JsVal.member, JsVal.optMember, JsVal.or, JsVal.truthy,
      JsVal.optIndex0]

/-! ## The claims -/

/-- C1: when at least one of title, location, date or time is empty (the empty
string, or not set at all), `handleSubmit` makes no `fetch` call and leaves
the error equal to the fixed validation message and the success message
empty, whatever the environment does. -/
theorem submit_missing_required (props : Props) (env : Env) (s : State)
    (h : isFalsy (getField s.formData "title") = true ∨
      isFalsy (getField s.formData "location") = true ∨
      isFalsy (getField s.formData "date") = true ∨
      isFalsy (getField s.formData "time") = true) :
    fetchCalls (handleSubmit props env s.formData) = [] ∧
      (submit props env s).error = .str "Please fill in all required fields" ∧
      (submit props env s).success = "" := by
  have hm := missingRequired_of_falsy s.formData h
  rw [submit, handleSubmit_invalid props env s.formData hm]
  simp [fetchCalls, run, Effect.apply]

theorem submit_missing_required_witness :
    isFalsy (getField (setField sampleDraft "time" "") "time") = true ∧
      fetchCalls (handleSubmit ⟨true⟩ (sampleEnv (some "abc") (.ok ⟨true, .ok .null⟩))
        (setField sampleDraft "time" "")) = [] ∧
      (submit ⟨true⟩ (sampleEnv (some "abc") (.ok ⟨true, .ok .null⟩))
        ⟨setField sampleDraft "time" "", false, .str "", ""⟩).error =
          .str "Please fill in all required fields" ∧
      (submit ⟨true⟩ (sampleEnv (some "abc") (.ok ⟨true, .ok .null⟩))
        ⟨setField sampleDraft "time" "", false, .str "", ""⟩).success = "" :=
  ⟨by decide,
   submit_missing_required ⟨true⟩ (sampleEnv (some "abc") (.ok ⟨true, .ok .null⟩))
     ⟨setField sampleDraft "time" "", false, .str "", ""⟩
     (Or.inr (Or.inr (Or.inr (by decide))))⟩

/-- C2: when the four required fields are all non-empty and
`localStorage.getItem('token')` returns `null`, `handleSubmit` makes no
`fetch` call, sets the error to the fixed authentication message and ends
with `loading = false`. -/
theorem submit_no_token (props : Props) (env : Env) (s : State)
    (h1 : isFalsy (getField s.formData "title") = false)
    (h2 : isFalsy (getField s.formData "location") = false)
    (h3 : isFalsy (getField s.formData "date") = false)
    (h4 : isFalsy (getField s.formData "time") = false)
    (ht : env.getItem "token" = .ok none) :
    fetchCalls (handleSubmit props env s.formData) = [] ∧
      (submit props env s).error = .str "You must be logged in to create events" ∧
      (submit props env s).loading = false := by
  have hm := missingRequired_of_filled s.formData h1 h2 h3 h4
  rw [submit, handleSubmit_noToken props env s.formData none hm ht rfl]
  simp [fetchCalls, run, Effect.apply]

theorem submit_no_token_witness :
    isFalsy (getField sampleState.formData "title") = false ∧
      isFalsy (getField sampleState.formData "location") = false ∧
      isFalsy (getField sampleState.formData "date") = false ∧
      isFalsy (getField sampleState.formData "time") = false ∧
      (sampleEnv none (.ok ⟨true, .ok .null⟩)).getItem "token" = .ok none ∧
      fetchCalls (handleSubmit ⟨true⟩ (sampleEnv none (.ok ⟨true, .ok .null⟩))
        sampleState.formData) = [] ∧
      (submit ⟨true⟩ (sampleEnv none (.ok ⟨true, .ok .null⟩)) sampleState).error =
        .str "You must be logged in to create events" ∧
      (submit ⟨true⟩ (sampleEnv none (.ok ⟨true, .ok .null⟩)) sampleState).loading = false :=
  ⟨by decide, by decide, by decide, by decide, rfl,
   submit_no_token ⟨true⟩ (sampleEnv none (.ok ⟨true, .ok .null⟩)) sampleState
     (by decide) (by decide) (by decide) (by decide) rfl⟩

/-- C5 (as stated, refuted): the server answers with an `ok` response whose
body is not JSON (an empty body, as with status 204).  `response.json()`
rejects before `response.ok` is tested, so the draft is kept as typed, no
success message is set and the error of the parser is shown. -/
theorem submit_ok_unparsable_keeps_draft :
    (sampleEnv (some "abc") (.ok ⟨true, .error ⟨"Unexpected end of JSON input"⟩⟩)).fetch
        (eventRequest sampleState.formData (some "abc")) =
        .ok ⟨true, .error ⟨"Unexpected end of JSON input"⟩⟩ ∧
      (submit ⟨true⟩ (sampleEnv (some "abc")
        (.ok ⟨true, .error ⟨"Unexpected end of JSON input"⟩⟩)) sampleState).formData =
        sampleDraft ∧
      (submit ⟨true⟩ (sampleEnv (some "abc")
        (.ok ⟨true, .error ⟨"Unexpected end of JSON input"⟩⟩)) sampleState).formData ≠
        defaultFormData ∧
      (submit ⟨true⟩ (sampleEnv (some "abc")
        (.ok ⟨true, .error ⟨"Unexpected end of JSON input"⟩⟩)) sampleState).success = "" ∧
      (submit ⟨true⟩ (sampleEnv (some "abc")
        (.ok ⟨true, .error ⟨"Unexpected end of JSON input"⟩⟩)) sampleState).error =
        .str "Unexpected end of JSON input" :=
  ⟨rfl, by decide, by decide, by decide, rfl⟩

/-- C5 (amended): when the submission receives a successful (`ok`) server
response whose body parses as JSON, the draft after `handleSubmit` is the
default draft (title, description, location, date and time empty, status
`active`), the success message is set to a non-empty text and the error is
empty. -/
theorem submit_ok_resets_draft (props : Props) (env : Env) (s : State)
    (h : receivesOk env s.formData = true) :
    (submit props env s).formData =
        [("title", ""), ("description", ""), ("location", ""), ("date", ""), ("time", ""),
         ("status", "active")] ∧
      (submit props env s).success = "Event created successfully!" ∧
      (submit props env s).success ≠ "" ∧
      (submit props env s).error = .str "" := by
  obtain ⟨token, response, data, hm, ht, hf, hr, hj, hok⟩ := receivesOk_true env s.formData h
  rw [submit, handleSubmit_ok props env s.formData token response data hm ht hf hr hj hok]
  simp [run, Effect.apply, defaultFormData]

theorem submit_ok_resets_draft_witness :
    receivesOk (sampleEnv (some "abc") (.ok ⟨true, .ok (.obj [])⟩)) sampleState.formData = true ∧
      (submit ⟨true⟩ (sampleEnv (some "abc") (.ok ⟨true, .ok (.obj [])⟩)) sampleState).formData =
        [("title", ""), ("description", ""), ("location", ""), ("date", ""), ("time", ""),
         ("status", "active")] ∧
      (submit ⟨true⟩ (sampleEnv (some "abc") (.ok ⟨true, .ok (.obj [])⟩)) sampleState).success =
        "Event created successfully!" ∧
      (submit ⟨true⟩ (sampleEnv (some "abc") (.ok ⟨true, .ok (.obj [])⟩)) sampleState).success ≠
        "" ∧
      (submit ⟨true⟩ (sampleEnv (some "abc") (.ok ⟨true, .ok (.obj [])⟩)) sampleState).error =
        .str "" :=
  ⟨by decide,
   submit_ok_resets_draft ⟨true⟩ (sampleEnv (some "abc") (.ok ⟨true, .ok (.obj [])⟩)) sampleState
     (by decide)⟩

/-- C6: on every path of `handleSubmit` that passes local validation (success,
remote rejection, missing token, thrown exception), `setLoading` is called
exactly twice, first with `true` and then with `false`, so that `loading` is
`false` at the end. -/
theorem submit_loading_reset_once (props : Props) (env : Env) (s : State)
    (h1 : isFalsy (getField s.formData "title") = false)
    (h2 : isFalsy (getField s.formData "location") = false)
    (h3 : isFalsy (getField s.formData "date") = false)
    (h4 : isFalsy (getField s.formData "time") = false) :
    loadingWrites (handleSubmit props env s.formData) = [true, false] ∧
      (submit props env s).loading = false := by
  have hm := missingRequired_of_filled s.formData h1 h2 h3 h4
  have hl := handleSubmit_valid_loading props env s.formData hm
  exact ⟨hl.1, hl.2 s⟩

theorem submit_loading_reset_once_witness :
    isFalsy (getField sampleState.formData "title") = false ∧
      isFalsy (getField sampleState.formData "location") = false ∧
      isFalsy (getField sampleState.formData "date") = false ∧
      isFalsy (getField sampleState.formData "time") = false ∧
      loadingWrites (handleSubmit ⟨false⟩ (sampleEnv (some "abc") (.error ⟨"Failed to fetch"⟩))
        sampleState.formData) = [true, false] ∧
      (submit ⟨false⟩ (sampleEnv (some "abc") (.error ⟨"Failed to fetch"⟩))
        sampleState).loading = false :=
  ⟨by decide, by decide, by decide, by decide,
   submit_loading_reset_once ⟨false⟩ (sampleEnv (some "abc") (.error ⟨"Failed to fetch"⟩))
     sampleState (by decide) (by decide) (by decide) (by decide)⟩

/-- C8: `handleInputChange` with a target of the given name and value leaves a
draft whose field of that name holds the value and whose every other field
is as before, and it clears both the error and the success message. -/
theorem handleInputChange_replaces_one_field (s : State) (name value : String) :
    (∀ k, getField (run s (handleInputChange s.formData name value)).formData k =
        if k = name then some value else getField s.formData k) ∧
      (run s (handleInputChange s.formData name value)).error = .str "" ∧
      (run s (handleInputChange s.formData name value)).success = "" := by
  refine ⟨fun k => ?_, by simp [handleInputChange, run, Effect.apply],
    by simp [handleInputChange, run, Effect.apply]⟩
  have hfd : (run s (handleInputChange s.formData name value)).formData =
      setField s.formData name value := by
    simp [handleInputChange, run, Effect.apply]
  rw [hfd]
  by_cases hk : k = name
  · subst hk
    simp [getField_setField_same]
  · simp [hk, getField_setField_other s.formData name value k hk]

/-- C7: when the `fetch` call rejects, or `response.json()` rejects, with an
error `e`, `handleSubmit` ends with `loading = false` and a non-empty error:
the message of `e` when that is non-empty, the generic fallback otherwise. -/
theorem submit_thrown_error (props : Props) (env : Env) (s : State) (t : String) (e : JsError)
    (h1 : isFalsy (getField s.formData "title") = false)
    (h2 : isFalsy (getField s.formData "location") = false)
    (h3 : isFalsy (getField s.formData "date") = false)
    (h4 : isFalsy (getField s.formData "time") = false)
    (ht : env.getItem "token" = .ok (some t)) (hne : t ≠ "")
    (hthrow : env.fetch (eventRequest s.formData (some t)) = .error e ∨
      ∃ response, env.fetch (eventRequest s.formData (some t)) = .ok response ∧
        response.json = .error e) :
    (submit props env s).loading = false ∧
      (submit props env s).error ≠ .str "" ∧
      (e.message ≠ "" → (submit props env s).error = .str e.message) ∧
      (e.message = "" →
        (submit props env s).error = .str "Failed to create event. Please try again.") := by
  have hm := missingRequired_of_filled s.formData h1 h2 h3 h4
  have hf : isFalsy (some t) = false := by simp [isFalsy, hne]
  have key : submit props env s =
      ⟨s.formData, false,
        .str (if e.message ≠ "" then e.message else "Failed to create event. Please try again."),
        ""⟩ := by
    rcases hthrow with hr | ⟨response, hr, hj⟩
    · rw [submit, handleSubmit_fetchThrows props env s.formData (some t) e hm ht hf hr]
      simp [run, catchBlock, Effect.apply]
    · rw [submit, handleSubmit_jsonThrows props env s.formData (some t) response e hm ht hf hr hj]
      simp [run, catchBlock, Effect.apply]
  rw [key]
  refine ⟨rfl, ?_, fun hmsg => by simp [hmsg], fun hmsg => by simp [hmsg]⟩
  by_cases hmsg : e.message = ""
  · simp [hmsg]
  · simp [hmsg]

theorem submit_thrown_error_witness :
    isFalsy (getField sampleState.formData "title") = false ∧
      isFalsy (getField sampleState.formData "location") = false ∧
      isFalsy (getField sampleState.formData "date") = false ∧
      isFalsy (getField sampleState.formData "time") = false ∧
      (sampleEnv (some "abc") (.error ⟨""⟩)).getItem "token" = .ok (some "abc") ∧
      (sampleEnv (some "abc") (.error ⟨""⟩)).fetch (eventRequest sampleState.formData (some "abc")) =
        .error ⟨""⟩ ∧
      (submit ⟨true⟩ (sampleEnv (some "abc") (.error ⟨""⟩)) sampleState).loading = false ∧
      (submit ⟨true⟩ (sampleEnv (some "abc") (.error ⟨""⟩)) sampleState).error =
        .str "Failed to create event. Please try again." :=
  ⟨by decide, by decide, by decide, by decide, rfl, rfl,
   (submit_thrown_error ⟨true⟩ (sampleEnv (some "abc") (.error ⟨""⟩)) sampleState "abc" ⟨""⟩
     (by decide) (by decide) (by decide) (by decide) rfl (by decide) (Or.inl rfl)).1,
   (submit_thrown_error ⟨true⟩ (sampleEnv (some "abc") (.error ⟨""⟩)) sampleState "abc" ⟨""⟩
     (by decide) (by decide) (by decide) (by decide) rfl (by decide) (Or.inl rfl)).2.2.2 rfl⟩

/-- C10: when the submission does not reach a successful server response
(local validation failure, missing token, remote rejection, thrown error),
`handleSubmit` never calls `setFormData`, so the draft is left as it was, and
the success message is empty afterwards. -/
theorem submit_failure_keeps_draft (props : Props) (env : Env) (s : State)
    (h : receivesOk env s.formData = false) :
    formDataWrites (handleSubmit props env s.formData) = [] ∧
      (submit props env s).formData = s.formData ∧
      (submit props env s).success = "" := by
  obtain ⟨mid, htrace, hq⟩ := handleSubmit_not_ok props env s.formData h
  rw [submit, htrace]
  refine ⟨?_, ?_, ?_⟩
  · simpa [formDataWrites] using formDataWrites_of_quiet mid hq
  · rw [run_cons, run_cons, (run_of_quiet mid hq _).1]
    rfl
  · rw [run_cons, run_cons, (run_of_quiet mid hq _).2]
    rfl

theorem submit_failure_keeps_draft_witness :
    receivesOk (sampleEnv (some "abc") (.ok ⟨false, .ok (.obj [("message", .str "Title taken")])⟩))
        sampleState.formData = false ∧
      formDataWrites (handleSubmit ⟨true⟩
        (sampleEnv (some "abc") (.ok ⟨false, .ok (.obj [("message", .str "Title taken")])⟩))
        sampleState.formData) = [] ∧
      (submit ⟨true⟩
        (sampleEnv (some "abc") (.ok ⟨false, .ok (.obj [("message", .str "Title taken")])⟩))
        sampleState).formData = sampleState.formData ∧
      (submit ⟨true⟩
        (sampleEnv (some "abc") (.ok ⟨false, .ok (.obj [("message", .str "Title taken")])⟩))
        sampleState).success = "" :=
  ⟨by decide,
   submit_failure_keeps_draft ⟨true⟩
     (sampleEnv (some "abc") (.ok ⟨false, .ok (.obj [("message", .str "Title taken")])⟩))
     sampleState (by decide)⟩

/-- C9: on a successful server response `handleSubmit` arms exactly one timer,
with a delay of 1500 ms, whose handler calls `onEventCreated` when the parent
supplied it, and the success message is already set when the timer is armed;
on every other path no timer is armed. -/
theorem submit_schedules_callback (props : Props) (env : Env) (d : JsObject) :
    (receivesOk env d = true →
      timers (handleSubmit props env d) =
          [(if props.onEventCreated then [Call.onEventCreated] else [], 1500)] ∧
        ∃ before after, handleSubmit props env d =
            before ++ Effect.setTimeout
              (if props.onEventCreated then [Call.onEventCreated] else []) 1500 :: after ∧
          timers before = [] ∧ timers after = [] ∧
          ∀ s, (run s before).success = "Event created successfully!") ∧
      (receivesOk env d = false → timers (handleSubmit props env d) = []) := by
  constructor
  · intro h
    obtain ⟨token, response, data, hm, ht, hf, hr, hj, hok⟩ := receivesOk_true env d h
    rw [handleSubmit_ok props env d token response data hm ht hf hr hj hok]
    refine ⟨by simp [timers, timerHandler], ?_⟩
    refine ⟨[.setError (.str ""), .setSuccess "", .setLoading true, .getItem "token",
        .fetch (eventRequest d token), .json, .setSuccess "Event created successfully!",
        .setFormData defaultFormData], [.setLoading false], ?_, ?_, ?_, ?_⟩
    · simp [timerHandler]
    · simp [timers]
    · simp [timers]
    · intro s
      simp [run, Effect.apply]
  · intro h
    obtain ⟨mid, htrace, hq⟩ := handleSubmit_not_ok props env d h
    rw [htrace]
    simpa [timers] using timers_of_quiet mid hq

theorem submit_schedules_callback_witness :
    receivesOk (sampleEnv (some "abc") (.ok ⟨true, .ok (.obj [])⟩)) sampleDraft = true ∧
      timers (handleSubmit ⟨true⟩ (sampleEnv (some "abc") (.ok ⟨true, .ok (.obj [])⟩))
        sampleDraft) = [([Call.onEventCreated], 1500)] ∧
      receivesOk (sampleEnv (some "abc") (.ok ⟨false, .ok (.obj [])⟩)) sampleDraft = false ∧
      timers (handleSubmit ⟨true⟩ (sampleEnv (some "abc") (.ok ⟨false, .ok (.obj [])⟩))
        sampleDraft) = [] :=
  ⟨by decide,
   ((submit_schedules_callback ⟨true⟩ (sampleEnv (some "abc") (.ok ⟨true, .ok (.obj [])⟩))
     sampleDraft).1 (by decide)).1,
   by decide,
   (submit_schedules_callback ⟨true⟩ (sampleEnv (some "abc") (.ok ⟨false, .ok (.obj [])⟩))
     sampleDraft).2 (by decide)⟩

/-- C4 (as stated, refuted): with the four required fields filled in and the
credential store holding the empty string under `token`, `handleSubmit` makes
no `fetch` call at all and reports that the user must log in. -/
theorem submit_empty_token_sends_nothing :
    isFalsy (getField sampleState.formData "title") = false ∧
      isFalsy (getField sampleState.formData "location") = false ∧
      isFalsy (getField sampleState.formData "date") = false ∧
      isFalsy (getField sampleState.formData "time") = false ∧
      (sampleEnv (some "") (.ok ⟨true, .ok (.obj [])⟩)).getItem "token" = .ok (some "") ∧
      fetchCalls (handleSubmit ⟨true⟩ (sampleEnv (some "") (.ok ⟨true, .ok (.obj [])⟩))
        sampleState.formData) = [] ∧
      (submit ⟨true⟩ (sampleEnv (some "") (.ok ⟨true, .ok (.obj [])⟩)) sampleState).error =
        .str "You must be logged in to create events" :=
  ⟨by decide, by decide, by decide, by decide, rfl, by decide, rfl⟩

/-- C4 (amended): with title and location non-empty, date and time the
non-empty strings `date` and `time`, and a non-empty token `t` in the
credential store, `handleSubmit` makes exactly one `fetch` call: a POST to the
events endpoint whose Authorization header is `Bearer ` followed by `t` and
whose body carries title, description, location and status as read from the
draft and the date `date ++ "T" ++ time ++ ":00"`. -/
theorem submit_posts_event (props : Props) (env : Env) (s : State) (date time t : String)
    (h1 : isFalsy (getField s.formData "title") = false)
    (h2 : isFalsy (getField s.formData "location") = false)
    (hd : getField s.formData "date" = some date) (hdn : date ≠ "")
    (htm : getField s.formData "time" = some time) (htn : time ≠ "")
    (ht : env.getItem "token" = .ok (some t)) (hne : t ≠ "") :
    fetchCalls (handleSubmit props env s.formData) =
      [⟨"http://localhost:5000/api/events", "POST",
        [("Content-Type", "application/json"), ("Authorization", "Bearer " ++ t)],
        ⟨getField s.formData "title", getField s.formData "description",
          getField s.formData "location", date ++ "T" ++ time ++ ":00",
          getField s.formData "status"⟩⟩] := by
  have h3 : isFalsy (getField s.formData "date") = false := by simp [hd, isFalsy, hdn]
  have h4 : isFalsy (getField s.formData "time") = false := by simp [htm, isFalsy, htn]
  have hm := missingRequired_of_filled s.formData h1 h2 h3 h4
  have hf : isFalsy (some t) = false := by simp [isFalsy, hne]
  rw [handleSubmit_fetchCalls props env s.formData (some t) hm ht hf]
  simp [eventRequest, dateTime, hd, htm, fieldText]

theorem submit_posts_event_witness :
    getField sampleState.formData "date" = some "2024-05-01" ∧
      getField sampleState.formData "time" = some "14:30" ∧
      fetchCalls (handleSubmit ⟨true⟩ (sampleEnv (some "abc") (.ok ⟨true, .ok (.obj [])⟩))
        sampleState.formData) =
        [⟨"http://localhost:5000/api/events", "POST",
          [("Content-Type", "application/json"), ("Authorization", "Bearer abc")],
          ⟨some "Open day", some "", some "Campus", "2024-05-01T14:30:00", some "active"⟩⟩] :=
  ⟨by decide, by decide,
   (submit_posts_event ⟨true⟩ (sampleEnv (some "abc") (.ok ⟨true, .ok (.obj [])⟩)) sampleState
     "2024-05-01" "14:30" "abc" (by decide) (by decide) (by decide) (by decide) (by decide)
     (by decide) rfl (by decide)).trans (by decide)⟩

/-- C3 (as stated, refuted): a rejection whose body is `{message: ""}` does not
surface the empty message of the body but the generic fallback. -/
theorem submit_empty_message_uses_fallback :
    (sampleEnv (some "abc") (.ok ⟨false, .ok (.obj [("message", .str "")])⟩)).fetch
        (eventRequest sampleState.formData (some "abc")) =
        .ok ⟨false, .ok (.obj [("message", .str "")])⟩ ∧
      (submit ⟨true⟩ (sampleEnv (some "abc") (.ok ⟨false, .ok (.obj [("message", .str "")])⟩))
        sampleState).error = .str "Failed to create event" ∧
      (submit ⟨true⟩ (sampleEnv (some "abc") (.ok ⟨false, .ok (.obj [("message", .str "")])⟩))
        sampleState).error ≠ .str "" :=
  ⟨rfl, rfl, fun h => by
    have h2 : (JsVal.str "Failed to create event") = .str "" := h
    simp at h2⟩

/-- C3 (amended): for a non-ok response whose body parsed to `data`, a JSON
value other than `null`, the error left by `handleSubmit` is chosen in
priority order: the `message` property of the body when it is truthy (for a
string: non-empty), else the `msg` property of the first entry of `errors`
when that is truthy, else `Failed to create event`.  So a body
`{message: X}` surfaces `X` for every non-empty string `X`, and a body
`{errors: [{msg: Y}]}` surfaces `Y` for every non-empty string `Y`. -/
theorem submit_rejection_message (props : Props) (env : Env) (s : State) (t : String)
    (response : Response) (data : JsVal)
    (h1 : isFalsy (getField s.formData "title") = false)
    (h2 : isFalsy (getField s.formData "location") = false)
    (h3 : isFalsy (getField s.formData "date") = false)
    (h4 : isFalsy (getField s.formData "time") = false)
    (ht : env.getItem "token" = .ok (some t)) (hne : t ≠ "")
    (hr : env.fetch (eventRequest s.formData (some t)) = .ok response)
    (hok : response.ok = false) (hj : response.json = .ok data)
    (hnull : data ≠ .null) (hundef : data ≠ .undefined) :
    ((data.optMember "message").truthy = true →
        (submit props env s).error = data.optMember "message") ∧
      ((data.optMember "message").truthy = false →
        (((data.optMember "errors").optIndex0).optMember "msg").truthy = true →
        (submit props env s).error = ((data.optMember "errors").optIndex0).optMember "msg") ∧
      ((data.optMember "message").truthy = false →
        (((data.optMember "errors").optIndex0).optMember "msg").truthy = false →
        (submit props env s).error = .str "Failed to create event") ∧
      (∀ X : String, X ≠ "" → data = .obj [("message", .str X)] →
        (submit props env s).error = .str X) ∧
      (∀ Y : String, Y ≠ "" → data = .obj [("errors", .arr [.obj [("msg", .str Y)]])] →
        (submit props env s).error = .str Y) := by
  have hm := missingRequired_of_filled s.formData h1 h2 h3 h4
  have hf : isFalsy (some t) = false := by simp [isFalsy, hne]
  have hv := failureMessage_ok env.typeError data hnull hundef
  have key : (submit props env s).error =
      JsVal.or (data.optMember "message")
        (JsVal.or (((data.optMember "errors").optIndex0).optMember "msg")
          (.str "Failed to create event")) := by
    rw [submit, handleSubmit_rejected props env s.formData (some t) response data _
      hm ht hf hr hj hok hv]
    simp [run, Effect.apply]
  rw [key]
  refine ⟨fun hm1 => by simp [JsVal.or, hm1], fun hm1 hm2 => by simp [JsVal.or, hm1, hm2],
    fun hm1 hm2 => by simp [JsVal.or, hm1, hm2], ?_, ?_⟩
  · intro X hX hdata
    subst hdata
    simp [JsVal.or, JsVal.optMember, List.lookup, JsVal.truthy, hX]
  · intro Y hY hdata
    subst hdata
    simp [JsVal.or, JsVal.optMember, JsVal.optIndex0, List.lookup, JsVal.truthy, hY]

theorem submit_rejection_message_witness :
    (sampleEnv (some "abc")
        (.ok ⟨false, .ok (.obj [("errors", .arr [.obj [("msg", .str "Title is required")]])])⟩)).fetch
        (eventRequest sampleState.formData (some "abc")) =
        .ok ⟨false, .ok (.obj [("errors", .arr [.obj [("msg", .str "Title is required")]])])⟩ ∧
      (submit ⟨true⟩ (sampleEnv (some "abc")
        (.ok ⟨false, .ok (.obj [("errors", .arr [.obj [("msg", .str "Title is required")]])])⟩))
        sampleState).error = .str "Title is required" :=
  ⟨rfl,
   (submit_rejection_message ⟨true⟩ (sampleEnv (some "abc")
      (.ok ⟨false, .ok (.obj [("errors", .arr [.obj [("msg", .str "Title is required")]])])⟩))
      sampleState "abc"
      ⟨false, .ok (.obj [("errors", .arr [.obj [("msg", .str "Title is required")]])])⟩
      (.obj [("errors", .arr [.obj [("msg", .str "Title is required")]])])
      (by decide) (by decide) (by decide) (by decide) rfl (by decide) rfl rfl rfl
      (by simp) (by simp)).2.2.2.2 "Title is required" (by decide) rfl⟩

end CreateEventForm
